import Mathlib

/-!
Shallow embedding of the `blue-collar-connect-frontend` repository,
specifically `src/app/community/view-all/page.tsx`, which contains the
communities overview page (`CommunitiesPage`), the community detail page
(`CommunityPage`) and the streaming chat page (`ChatPage`).

The pages are React components: their behaviour is a collection of event
handlers over component state.  We embed that state as explicit records and
each handler as a pure state transformer.  Network calls are modelled by
passing the outcome of the backend as an explicit parameter (`Bool` for ok /
failure, `Option` for a parsed body), and the request each handler issues is
modelled as a value of an explicit request record so that claims about URLs
and form fields can be stated.
-/

namespace BlueCollar

/-! ### Models of the ECMAScript string builtins used by the page

The page calls the JavaScript builtins `String.prototype.trim`,
`String.prototype.toLowerCase`, `String.prototype.includes` and
`encodeURIComponent`.  These are platform builtins, not code of the
repository; we model them here, faithful to the ECMAScript specification on
the inputs the page uses, and keep them structurally recursive so that they
evaluate inside the kernel. -/

/-- Modelled from the spec of `String.prototype.trim`: strip leading and
trailing whitespace. -/
def jsTrim (s : String) : String :=
  String.mk (((s.data.dropWhile Char.isWhitespace).reverse.dropWhile
    Char.isWhitespace).reverse)

/-- Modelled from the spec of `String.prototype.toLowerCase` (ASCII case
mapping, which is all the page compares). -/
def jsToLower (s : String) : String :=
  String.mk (s.data.map Char.toLower)

/-- Modelled from the spec of `String.prototype.includes`: substring
containment (true for the empty pattern, as in JavaScript). -/
def jsIncludes (s pat : String) : Bool :=
  decide (pat.data <:+: s.data)

/-- Uppercase hexadecimal digit for a value below 16, as produced by
`encodeURIComponent`. -/
def hexDigit (n : Nat) : Char :=
  if n < 10 then Char.ofNat (48 + n) else Char.ofNat (55 + n)

/-- UTF-8 byte sequence of a code point, used by `encodeURIComponent` for
characters outside the unreserved set. -/
def utf8Bytes (c : Char) : List Nat :=
  let n := c.toNat
  if n < 128 then [n]
  else if n < 2048 then [192 + n / 64, 128 + n % 64]
  else if n < 65536 then [224 + n / 4096, 128 + (n / 64) % 64, 128 + n % 64]
  else [240 + n / 262144, 128 + (n / 4096) % 64, 128 + (n / 64) % 64,
    128 + n % 64]

/-- Characters `encodeURIComponent` leaves unescaped: ASCII letters, digits,
and the marks `- _ . ! ~ * ( )` together with the apostrophe (code 39). -/
def uriUnreserved (n : Nat) : Bool :=
  (65 ≤ n && n ≤ 90) || (97 ≤ n && n ≤ 122) || (48 ≤ n && n ≤ 57) ||
    [45, 95, 46, 33, 126, 42, 39, 40, 41].contains n

/-- Percent-escape of one byte. -/
def pctEncodeByte (b : Nat) : List Char :=
  ['%', hexDigit (b / 16), hexDigit (b % 16)]

/-- Modelled from the spec of the ECMAScript builtin `encodeURIComponent`:
unreserved characters are kept, every other character is UTF-8 encoded and
percent-escaped byte by byte. -/
def encodeURIComponent (s : String) : String :=
  String.mk (s.data.foldr
    (fun c acc =>
      if uriUnreserved c.toNat then c :: acc
      else ((utf8Bytes c).map pctEncodeByte).flatten ++ acc)
    [])

/-! ### Data model of the communities page

Mirrors the `Timestamp` and `Community` interfaces of
`src/app/community/view-all/page.tsx` (the optional `posts` payload is an
opaque backend blob the page never reads and is omitted). -/

/-- Mirror of the `Timestamp` DTO. -/
structure Timestamp where
  _seconds : Int
  _nanoseconds : Int
deriving DecidableEq

/-- Mirror of the `Community` DTO of the view-all page. -/
structure Community where
  communityId : String
  communityName : String
  communityDescription : String
  communityType : String
  communityTopics : List String
  communityRules : List String
  communityProfilePhoto : String
  communityBackgroundPhoto : String
  createdAt : Timestamp
  updatedAt : Timestamp
  memberCount : Int
deriving DecidableEq

/-- Component state of `CommunitiesPage`: the three community lists and the
search term (the `loading` flag is pure presentation and not claimed
about). -/
structure CommunitiesState where
  allCommunities : List Community
  joinedCommunities : List Community
  notJoinedCommunities : List Community
  searchTerm : String
deriving DecidableEq

/-- The ids of the joined communities, as built by
`new Set(joinedCommunities.map((c) => c.communityId))` in the page. -/
def joinedIds (s : CommunitiesState) : List String :=
  s.joinedCommunities.map (fun c => c.communityId)

/-- A backend request, recording the HTTP method, the full URL and the
multipart form fields the page attaches. -/
structure ApiRequest where
  method : String
  url : String
  formFields : List (String × String)
deriving DecidableEq

/-- Request issued by `searchNotJoinedCommunities` (page lines 119-130). -/
def backendSearchRequest (backendUrl term : String) : ApiRequest :=
  { method := "GET"
    url := backendUrl ++ "/api/community/search?name=" ++
      encodeURIComponent term ++ "&limit=5"
    formFields := [] }

/-- Request issued by `joinCommunity` (page lines 167-181). -/
def joinRequest (backendUrl uid : String) (c : Community) : ApiRequest :=
  { method := "POST"
    url := backendUrl ++ "/api/community/join"
    formFields := [("userId", uid), ("communityId", c.communityId),
      ("communityName", c.communityName)] }

/-- Request issued by `leaveCommunity` (page lines 198-212). -/
def leaveRequest (backendUrl uid : String) (c : Community) : ApiRequest :=
  { method := "POST"
    url := backendUrl ++ "/api/community/leave"
    formFields := [("userId", uid), ("communityId", c.communityId),
      ("communityName", c.communityName)] }

/-- State update of the empty-search effect (page lines 107-112): when the
search term trims to empty, `notJoinedCommunities` is recomputed as all
communities whose id is not among the joined ids. -/
def emptySearchRecompute (s : CommunitiesState) : CommunitiesState :=
  if jsTrim s.searchTerm = "" then
    { s with notJoinedCommunities :=
        s.allCommunities.filter (fun c => !(joinedIds s).contains c.communityId) }
  else s

/-- State update of `searchNotJoinedCommunities` (page lines 115-144).
`response = some results` models an ok response with parsed results;
`response = none` models a non-ok response or a thrown error, which the
catch block turns into an empty list. -/
def searchNotJoinedCommunities (response : Option (List Community))
    (s : CommunitiesState) : CommunitiesState :=
  match response with
  | some searchResults =>
    { s with notJoinedCommunities :=
        searchResults.filter (fun c => !(joinedIds s).contains c.communityId) }
  | none => { s with notJoinedCommunities := [] }

/-- State update of `joinCommunity` (page lines 165-194).  `user = none`
models an unauthenticated user (early return); `ok` models whether the POST
succeeded (a non-ok response throws and the catch block only logs). -/
def joinCommunity (user : Option String) (c : Community) (ok : Bool)
    (s : CommunitiesState) : CommunitiesState :=
  match user with
  | none => s
  | some _ =>
    if ok then
      { s with
          joinedCommunities := s.joinedCommunities ++ [c]
          notJoinedCommunities :=
            s.notJoinedCommunities.filter
              (fun x => x.communityId != c.communityId) }
    else s

/-- State update of `leaveCommunity` (page lines 196-230): on success the
community is removed from the joined list, and appended back to the
not-joined list when the search term trims to empty or the community name
contains the search term case-insensitively. -/
def leaveCommunity (user : Option String) (c : Community) (ok : Bool)
    (s : CommunitiesState) : CommunitiesState :=
  match user with
  | none => s
  | some _ =>
    if ok then
      let s1 := { s with joinedCommunities :=
        s.joinedCommunities.filter (fun x => x.communityId != c.communityId) }
      if jsTrim s.searchTerm = "" ||
          jsIncludes (jsToLower c.communityName) (jsToLower s.searchTerm) then
        { s1 with notJoinedCommunities := s1.notJoinedCommunities ++ [c] }
      else s1
    else s

/-- The disjointness property of the two lists: no community id occurs both
in `joinedCommunities` and in `notJoinedCommunities`. -/
def idsDisjoint (s : CommunitiesState) : Bool :=
  s.joinedCommunities.all (fun j =>
    s.notJoinedCommunities.all (fun n => n.communityId != j.communityId))

/-- The list-updating operations of `CommunitiesPage`, for stating the
disjointness invariant over whole operation sequences. -/
inductive CommunitiesOp where
  | recompute
  | search (response : Option (List Community))
  | join (user : Option String) (c : Community) (ok : Bool)
  | leave (user : Option String) (c : Community) (ok : Bool)
  | setTerm (t : String)
deriving DecidableEq

/-- Apply one operation of the communities page to its state (`setTerm`
models typing in the search box, which only changes the term). -/
def applyOp (op : CommunitiesOp) (s : CommunitiesState) : CommunitiesState :=
  match op with
  | .recompute => emptySearchRecompute s
  | .search response => searchNotJoinedCommunities response s
  | .join user c ok => joinCommunity user c ok s
  | .leave user c ok => leaveCommunity user c ok s
  | .setTerm t => { s with searchTerm := t }

/-- Run a sequence of communities-page operations. -/
def runOps (ops : List CommunitiesOp) (s : CommunitiesState) :
    CommunitiesState :=
  match ops with
  | [] => s
  | op :: rest => runOps rest (applyOp op s)

/-! ### Data model of the chat page

Mirrors the `Message` interface and the streaming state of `ChatPage`
(page lines 664-1108).  The mutable refs `eventSourceRef`,
`chunkTimeoutRef` and `retryCountRef`, the local accumulator `fullMessage`
and the captured `assistantMessageId` become explicit state fields:
`sourceOpen` is `eventSourceRef.current !== null`, `timeoutArmed` is
`chunkTimeoutRef.current !== null`. -/

/-- Mirror of the `MessageRole` type. -/
inductive MessageRole where
  | user
  | assistant
deriving DecidableEq

/-- Mirror of the `Message` interface (timestamps abstracted to `Nat`). -/
structure Message where
  id : String
  role : MessageRole
  content : String
  timestamp : Nat
  error : Bool
  isLoading : Bool
deriving DecidableEq

/-- Mirror of the constant `CHUNK_TIMEOUT` (page line 689): milliseconds of
inactivity before the chunk timeout fires. -/
def CHUNK_TIMEOUT : Nat := 30000

/-- Mirror of the constant `MAX_RETRIES` (page line 690). -/
def MAX_RETRIES : Nat := 3

/-- State of `ChatPage` relevant to the stream: the message list, the input
field, the `isLoading` flag, the connection and timer refs (as booleans),
the retry counter, the id of the assistant message of the active stream and
the accumulated `fullMessage`. -/
structure ChatState where
  messages : List Message
  input : String
  isLoading : Bool
  sourceOpen : Bool
  timeoutArmed : Bool
  retryCount : Nat
  currentAid : String
  fullMessage : String
deriving DecidableEq

/-- The `setMessages(prev => prev.map(...))` pattern used throughout the
page: rewrite every message whose id matches, leave the rest alone. -/
def updateMsg (aid : String) (f : Message → Message) (ms : List Message) :
    List Message :=
  ms.map (fun m => if m.id = aid then f m else m)

/-- The message rewrite applied by the `onmessage` handler on a good chunk:
content replaced by the accumulated `fullMessage`, loading cleared. -/
def setContentLoaded (fm : String) (m : Message) : Message :=
  { m with content := fm, isLoading := false }

/-- Mirror of `cleanupStream` (page lines 731-741): close and null the
event source, clear and null the chunk timeout, clear `isLoading`. -/
def cleanupStream (s : ChatState) : ChatState :=
  { s with sourceOpen := false, timeoutArmed := false, isLoading := false }

/-- Mirror of `handleStreamError` (page lines 767-781): append
`"\n[Error: " ++ errorMsg ++ "]"` to the assistant message, set its error
flag, clear its loading flag, then clean up the stream. -/
def handleStreamError (aid errorMsg : String) (s : ChatState) : ChatState :=
  let ms := updateMsg aid
    (fun m =>
      { m with
        content := m.content ++ "\n[Error: " ++ errorMsg ++ "]",
        error := true, isLoading := false })
    s.messages
  cleanupStream { s with messages := ms }

/-- Arming step of `startChunkTimeout` (page lines 743-765): any pending
timeout is cleared and a fresh one is set, so the timer ref ends up
non-null. -/
def startChunkTimeout (s : ChatState) : ChatState :=
  { s with timeoutArmed := true }

/-- Firing of the chunk timeout (the callback at page lines 747-764):
append the fixed timeout error text to the assistant message, set its error
flag, clear its loading flag, then clean up the stream. -/
def chunkTimeoutFire (aid : String) (s : ChatState) : ChatState :=
  let ms := updateMsg aid
    (fun m =>
      { m with
        content := m.content ++
          "\n[Error: Response timeout - No data received for 30 seconds]",
        error := true, isLoading := false })
    s.messages
  cleanupStream { s with messages := ms }

/-- Mirror of the `eventSource.onmessage` handler (page lines 827-854):
empty data is ignored; otherwise the chunk timeout is restarted, a chunk
containing `"[Error:"` is routed to `handleStreamError`, and a good chunk
is appended to `fullMessage`, which becomes the content of the assistant
message. -/
def onMessageHandler (aid d : String) (s : ChatState) : ChatState :=
  if d = "" then s
  else
    let s1 := startChunkTimeout s
    if jsIncludes d "[Error:" then handleStreamError aid d s1
    else
      let fm := s1.fullMessage ++ d
      { s1 with fullMessage := fm
                messages := updateMsg aid (setContentLoaded fm) s1.messages }

/-- Mirror of the `eventSource.onerror` handler (page lines 856-865):
increment the retry counter; once it reaches `MAX_RETRIES`, report the
failure through `handleStreamError`. -/
def onErrorHandler (aid : String) (s : ChatState) : ChatState :=
  let s1 := { s with retryCount := s.retryCount + 1 }
  if MAX_RETRIES ≤ s1.retryCount then
    handleStreamError aid "Connection failed after multiple retries" s1
  else s1

/-- Mirror of `handleSendMessage` (page lines 784-875): blank input returns
immediately; otherwise the previous stream is cleaned up, the retry counter
reset, loading set, the user message and an empty loading assistant message
appended, the input cleared, and a fresh event source opened with an empty
accumulator.  `uid` and `aid` stand for the two generated uuids, `now` for
the timestamps. -/
def handleSendMessage (text uid aid : String) (now : Nat) (s : ChatState) :
    ChatState :=
  if jsTrim text = "" then s
  else
    let s1 := cleanupStream s
    let s2 := { s1 with retryCount := 0, isLoading := true }
    let userMessage : Message :=
      { id := uid, role := .user, content := text, timestamp := now
        error := false, isLoading := false }
    let assistantMessage : Message :=
      { id := aid, role := .assistant, content := "", timestamp := now
        error := false, isLoading := true }
    let s3 := { s2 with
      messages := s2.messages ++ [userMessage, assistantMessage]
      input := "" }
    { s3 with sourceOpen := true, currentAid := aid, fullMessage := "" }

/-- The events the chat page reacts to: a data chunk, an `onerror` event or
the custom `done` event on the open event source, the chunk timeout firing,
component unmount, and a send. -/
inductive ChatEvent where
  | message (d : String)
  | errorEvt
  | doneEvt
  | timeoutFire
  | unmount
  | send (text uid aid : String) (now : Nat)
deriving DecidableEq

/-- Dispatch one event.  Events of the `EventSource` only fire while it is
open (a closed source delivers nothing), and the chunk timeout only fires
while armed (`clearTimeout` cancels it); the unmount cleanup effect and
`handleSendMessage` run unconditionally. -/
def step (e : ChatEvent) (s : ChatState) : ChatState :=
  match e with
  | .message d => if s.sourceOpen then onMessageHandler s.currentAid d s else s
  | .errorEvt => if s.sourceOpen then onErrorHandler s.currentAid s else s
  | .doneEvt => if s.sourceOpen then cleanupStream s else s
  | .timeoutFire => if s.timeoutArmed then chunkTimeoutFire s.currentAid s else s
  | .unmount => cleanupStream s
  | .send text uid aid now => handleSendMessage text uid aid now s

/-- Run a sequence of chat events. -/
def runEvents (es : List ChatEvent) (s : ChatState) : ChatState :=
  match es with
  | [] => s
  | e :: rest => runEvents rest (step e s)

/-- Concatenation of a list of chunks in arrival order. -/
def joinChunks (cs : List String) : String :=
  cs.foldr (fun a b => a ++ b) ""

/-- The stream is fully torn down: event source closed and nulled, chunk
timeout cleared and nulled, loading flag off. -/
def streamClosed (s : ChatState) : Prop :=
  s.sourceOpen = false ∧ s.timeoutArmed = false ∧ s.isLoading = false

instance : DecidablePred streamClosed := fun s => by
  unfold streamClosed; infer_instance

/-! ### Sample values used by the witness theorems -/

/-- A sample timestamp. -/
def sampleTimestamp : Timestamp :=
  { _seconds := 1700000000, _nanoseconds := 0 }

/-- A sample community. -/
def sampleCommunity : Community :=
  { communityId := "c1", communityName := "Welders",
    communityDescription := "welding talk", communityType := "public",
    communityTopics := [], communityRules := [], communityProfilePhoto := "",
    communityBackgroundPhoto := "", createdAt := sampleTimestamp,
    updatedAt := sampleTimestamp, memberCount := 3 }

/-- A second sample community. -/
def sampleCommunity2 : Community :=
  { sampleCommunity with communityId := "c2", communityName := "Plumbers" }

/-- A sample communities-page state: one joined, one not joined. -/
def sampleCommunitiesState : CommunitiesState :=
  { allCommunities := [sampleCommunity, sampleCommunity2],
    joinedCommunities := [sampleCommunity],
    notJoinedCommunities := [sampleCommunity2], searchTerm := "" }

/-- A sample assistant placeholder message. -/
def sampleAssistantMessage : Message :=
  { id := "a1", role := .assistant, content := "", timestamp := 0,
    error := false, isLoading := true }

/-- A sample chat state right after a send: stream open, retry count zero,
empty accumulator, assistant placeholder in the list. -/
def sampleChatState : ChatState :=
  { messages := [sampleAssistantMessage], input := "", isLoading := true,
    sourceOpen := true, timeoutArmed := false, retryCount := 0,
    currentAid := "a1", fullMessage := "" }

/-- The sample chat state with the chunk timeout armed. -/
def sampleArmedChatState : ChatState :=
  { sampleChatState with timeoutArmed := true }

end BlueCollar

namespace BlueCollar

/-! ### Theorems -/

/-- C5: for every community `c` and authenticated user, `joinCommunity`
issues a POST to the `/api/community/join` endpoint carrying `userId`,
`communityId` and `communityName`; on an ok response it appends `c` to
`joinedCommunities` and removes every entry carrying the id of `c` from
`notJoinedCommunities`; on a non-ok response or thrown error both lists are
unchanged. -/
theorem joinCommunity_spec (backendUrl uid : String) (c : Community)
    (s : CommunitiesState) :
    joinRequest backendUrl uid c =
      { method := "POST", url := backendUrl ++ "/api/community/join",
        formFields := [("userId", uid), ("communityId", c.communityId),
          ("communityName", c.communityName)] } ∧
    (joinCommunity (some uid) c true s).joinedCommunities =
      s.joinedCommunities ++ [c] ∧
    (joinCommunity (some uid) c true s).notJoinedCommunities =
      s.notJoinedCommunities.filter (fun x => x.communityId != c.communityId) ∧
    joinCommunity (some uid) c false s = s :=
  ⟨rfl, rfl, rfl, rfl⟩

/-- C6: for every community `c` and authenticated user, `leaveCommunity`
issues a POST to the `/api/community/leave` endpoint; on an ok response it
removes every entry carrying the id of `c` from `joinedCommunities` and appends `c`
to `notJoinedCommunities` exactly when the search term trims to empty or
the name of `c` contains the search term case-insensitively; on a non-ok
response or thrown error both lists are unchanged. -/
theorem leaveCommunity_spec (backendUrl uid : String) (c : Community)
    (s : CommunitiesState) :
    leaveRequest backendUrl uid c =
      { method := "POST", url := backendUrl ++ "/api/community/leave",
        formFields := [("userId", uid), ("communityId", c.communityId),
          ("communityName", c.communityName)] } ∧
    (leaveCommunity (some uid) c true s).joinedCommunities =
      s.joinedCommunities.filter (fun x => x.communityId != c.communityId) ∧
    (leaveCommunity (some uid) c true s).notJoinedCommunities =
      (if jsTrim s.searchTerm = "" ||
          jsIncludes (jsToLower c.communityName) (jsToLower s.searchTerm) then
        s.notJoinedCommunities ++ [c]
      else s.notJoinedCommunities) ∧
    leaveCommunity (some uid) c false s = s := by
  refine ⟨rfl, ?_, ?_, rfl⟩
  · simp only [leaveCommunity]
    by_cases hc : (decide (jsTrim s.searchTerm = "") ||
        jsIncludes (jsToLower c.communityName) (jsToLower s.searchTerm)) = true
    · rw [if_pos hc]; simp
    · rw [if_neg hc]; simp
  · simp only [leaveCommunity]
    by_cases hc : (decide (jsTrim s.searchTerm = "") ||
        jsIncludes (jsToLower c.communityName) (jsToLower s.searchTerm)) = true
    · rw [if_pos hc, if_pos hc]; simp
    · rw [if_neg hc, if_neg hc]; simp

/-- C7: for every non-blank search term, `searchNotJoinedCommunities`
queries `/api/community/search` with the URL-encoded term and `limit=5`,
and on an ok response sets `notJoinedCommunities` to exactly the returned
results whose id is not among the joined ids; on failure it sets the empty
list. -/
theorem searchNotJoined_spec (backendUrl term : String)
    (results : List Community) (s : CommunitiesState)
    (h : jsTrim term ≠ "") :
    (backendSearchRequest backendUrl term).url =
      backendUrl ++ "/api/community/search?name=" ++
        encodeURIComponent term ++ "&limit=5" ∧
    (backendSearchRequest backendUrl term).method = "GET" ∧
    (searchNotJoinedCommunities (some results) s).notJoinedCommunities =
      results.filter (fun c => !(joinedIds s).contains c.communityId) ∧
    (searchNotJoinedCommunities none s).notJoinedCommunities =
      ([] : List Community) :=
  ⟨rfl, rfl, rfl, rfl⟩

/-- Witness for C7 at a concrete term, result list and state. -/
theorem searchNotJoined_spec_witness :
    (backendSearchRequest "B" "weld all").url =
      "B" ++ "/api/community/search?name=" ++
        encodeURIComponent "weld all" ++ "&limit=5" ∧
    (backendSearchRequest "B" "weld all").method = "GET" ∧
    (searchNotJoinedCommunities (some [sampleCommunity, sampleCommunity2])
        sampleCommunitiesState).notJoinedCommunities =
      [sampleCommunity, sampleCommunity2].filter
        (fun c => !(joinedIds sampleCommunitiesState).contains c.communityId) ∧
    (searchNotJoinedCommunities none sampleCommunitiesState).notJoinedCommunities =
      ([] : List Community) :=
  searchNotJoined_spec "B" "weld all" [sampleCommunity, sampleCommunity2]
    sampleCommunitiesState (by decide)

/-- Filtering any list against the joined ids yields a not-joined list
disjoint from the joined list. -/
lemma idsDisjoint_of_filter (s : CommunitiesState) (l : List Community) :
    idsDisjoint
      { s with
        notJoinedCommunities :=
          l.filter (fun c => !(joinedIds s).contains c.communityId) } = true := by
  simp only [idsDisjoint, List.all_eq_true]
  intro j hj n hn
  have hid : j.communityId ∈ joinedIds s := List.mem_map.mpr ⟨j, hj, rfl⟩
  have hfilt := List.of_mem_filter hn
  simp at hfilt
  exact bne_iff_ne.mpr (fun he => hfilt (he ▸ hid))

/-- Joining preserves disjointness of the two community lists. -/
lemma joinCommunity_preserves_disjoint (user : Option String) (c : Community)
    (ok : Bool) (s : CommunitiesState) (h : idsDisjoint s = true) :
    idsDisjoint (joinCommunity user c ok s) = true := by
  cases user with
  | none => exact h
  | some uid =>
    cases ok with
    | false => exact h
    | true =>
      simp only [idsDisjoint, List.all_eq_true] at h ⊢
      intro j hj n hn
      have hn' := List.mem_of_mem_filter hn
      have hfilt := List.of_mem_filter hn
      rcases List.mem_append.mp hj with hj' | hj'
      · exact h j hj' n hn'
      · simp only [List.mem_singleton] at hj'
        subst hj'
        exact hfilt

/-- Leaving preserves disjointness of the two community lists. -/
lemma leaveCommunity_preserves_disjoint (user : Option String) (c : Community)
    (ok : Bool) (s : CommunitiesState) (h : idsDisjoint s = true) :
    idsDisjoint (leaveCommunity user c ok s) = true := by
  cases user with
  | none => exact h
  | some uid =>
    cases ok with
    | false => exact h
    | true =>
      simp only [leaveCommunity]
      by_cases hc : (decide (jsTrim s.searchTerm = "") ||
          jsIncludes (jsToLower c.communityName) (jsToLower s.searchTerm)) = true
      · rw [if_pos trivial, if_pos hc]
        simp only [idsDisjoint, List.all_eq_true] at h ⊢
        intro j hj n hn
        have hj' := List.mem_of_mem_filter hj
        have hjfilt := List.of_mem_filter hj
        rcases List.mem_append.mp hn with hn' | hn'
        · exact h j hj' n hn'
        · simp only [List.mem_singleton] at hn'
          subst hn'
          exact bne_iff_ne.mpr (Ne.symm (bne_iff_ne.mp hjfilt))
      · rw [if_pos trivial, if_neg hc]
        simp only [idsDisjoint, List.all_eq_true] at h ⊢
        intro j hj n hn
        exact h j (List.mem_of_mem_filter hj) n hn

/-- Every single communities-page operation preserves disjointness. -/
lemma applyOp_preserves_disjoint (op : CommunitiesOp) (s : CommunitiesState)
    (h : idsDisjoint s = true) : idsDisjoint (applyOp op s) = true := by
  cases op with
  | recompute =>
    simp only [applyOp, emptySearchRecompute]
    by_cases hc : jsTrim s.searchTerm = ""
    · rw [if_pos hc]; exact idsDisjoint_of_filter s s.allCommunities
    · rw [if_neg hc]; exact h
  | search response =>
    cases response with
    | some results => exact idsDisjoint_of_filter s results
    | none =>
      simp only [applyOp, searchNotJoinedCommunities, idsDisjoint,
        List.all_eq_true]
      intro j hj n hn
      exact absurd hn (List.not_mem_nil n)
  | join user c ok => exact joinCommunity_preserves_disjoint user c ok s h
  | leave user c ok => exact leaveCommunity_preserves_disjoint user c ok s h
  | setTerm t => exact h

/-- C8: along any sequence of list-updating operations of the communities
page, starting from a state where the joined and not-joined lists share no
community id (such as the initial empty state), no community id ever occurs
in both lists: the empty-search recomputation and a completed search
establish disjointness outright, and a completed join or leave preserves
it. -/
theorem communities_lists_disjoint (ops : List CommunitiesOp)
    (s : CommunitiesState) (h : idsDisjoint s = true) :
    idsDisjoint (runOps ops s) = true := by
  induction ops generalizing s with
  | nil => exact h
  | cons op rest ih =>
    exact ih (applyOp op s) (applyOp_preserves_disjoint op s h)

/-- Witness for C8: a concrete operation sequence (search, join, typing a
term, leave, recompute) applied to the sample state. -/
theorem communities_lists_disjoint_witness :
    idsDisjoint (runOps
      [.search (some [sampleCommunity, sampleCommunity2]),
       .join (some "u1") sampleCommunity2 true,
       .setTerm "weld",
       .leave (some "u1") sampleCommunity true,
       .recompute]
      sampleCommunitiesState) = true :=
  communities_lists_disjoint _ sampleCommunitiesState (by decide)

/-- Running a cons of events steps the first event and continues. -/
lemma runEvents_cons (e : ChatEvent) (es : List ChatEvent) (s : ChatState) :
    runEvents (e :: es) s = runEvents es (step e s) := rfl

/-- Unfolding of `joinChunks` on a cons. -/
lemma joinChunks_cons (c : String) (cs : List String) :
    joinChunks (c :: cs) = c ++ joinChunks cs := rfl

/-- Overwriting the content twice equals overwriting once with the final
value (the handler writes the whole accumulator each time). -/
lemma setContentLoaded_comp (x y : String) (m : Message) :
    setContentLoaded x (setContentLoaded y m) = setContentLoaded x m := rfl

/-- Two successive content overwrites of the same message id collapse to
the final one. -/
lemma updateMsg_set_set (aid x y : String) (ms : List Message) :
    updateMsg aid (setContentLoaded x) (updateMsg aid (setContentLoaded y) ms) =
      updateMsg aid (setContentLoaded x) ms := by
  induction ms with
  | nil => rfl
  | cons m rest ih =>
    simp only [updateMsg, List.map_cons] at ih ⊢
    by_cases hm : m.id = aid
    · simp [setContentLoaded, hm]
      intro a _
      by_cases ha : a.id = aid <;> simp [ha]
    · simp [setContentLoaded, hm]
      intro a _
      by_cases ha : a.id = aid <;> simp [ha]

/-- Processing a nonempty sequence of nonempty, error-free chunks on an
open stream arms the chunk timeout, accumulates the chunks onto
`fullMessage` in arrival order, and rewrites exactly the active assistant
message to the accumulated content. -/
lemma runEvents_good_chunks (cs : List String) : ∀ (s : ChatState),
    s.sourceOpen = true →
    (∀ c ∈ cs, c ≠ "" ∧ jsIncludes c "[Error:" = false) →
    cs ≠ [] →
    runEvents (cs.map ChatEvent.message) s =
      { s with
        timeoutArmed := true,
        fullMessage := s.fullMessage ++ joinChunks cs,
        messages := updateMsg s.currentAid (setContentLoaded (s.fullMessage ++ joinChunks cs)) s.messages } := by
  induction cs with
  | nil => intro s _ _ hne; exact absurd rfl hne
  | cons c rest ih =>
    intro s hs hcs _
    obtain ⟨hc1, hc2⟩ := hcs c (List.mem_cons_self c rest)
    have hstep : step (.message c) s =
        { s with
          timeoutArmed := true,
          fullMessage := s.fullMessage ++ c,
          messages := updateMsg s.currentAid (setContentLoaded (s.fullMessage ++ c)) s.messages } := by
      simp [step, hs, onMessageHandler, hc1, hc2, startChunkTimeout,
        setContentLoaded]
    rcases eq_or_ne rest [] with hrest | hrest
    · subst hrest
      rw [List.map_cons, List.map_nil, runEvents_cons,
        show ∀ u, runEvents [] u = u from fun _ => rfl, hstep]
      simp [joinChunks, String.append_empty]
    · have hrec := ih ({ s with
          timeoutArmed := true,
          fullMessage := s.fullMessage ++ c,
          messages := updateMsg s.currentAid (setContentLoaded (s.fullMessage ++ c)) s.messages })
        hs (fun x hx => hcs x (List.mem_cons_of_mem c hx)) hrest
      rw [List.map_cons, runEvents_cons, hstep, hrec]
      simp only [joinChunks_cons, updateMsg_set_set, String.append_assoc]

/-- C1: on the open stream, for every nonempty sequence of nonempty data
chunks none of which contains the substring `"[Error:"`, after processing
the chunks the assistant message identified by the active id has content
equal to the concatenation of the chunks in arrival order, and no other
message is modified (the whole list is the pointwise rewrite of exactly
that id). -/
theorem chat_chunks_append_in_order (cs : List String) (s : ChatState)
    (hs : s.sourceOpen = true) (hfm : s.fullMessage = "")
    (hcs : ∀ c ∈ cs, c ≠ "" ∧ jsIncludes c "[Error:" = false)
    (hne : cs ≠ []) :
    runEvents (cs.map ChatEvent.message) s =
      { s with
        timeoutArmed := true,
        fullMessage := joinChunks cs,
        messages := updateMsg s.currentAid (setContentLoaded (joinChunks cs)) s.messages } := by
  rw [runEvents_good_chunks cs s hs hcs hne, hfm]
  simp [String.empty_append]

/-- Witness for C1: two concrete chunks on the sample open stream. -/
theorem chat_chunks_append_in_order_witness :
    runEvents (["Hello", " world"].map ChatEvent.message) sampleChatState =
      { sampleChatState with
        timeoutArmed := true,
        fullMessage := joinChunks ["Hello", " world"],
        messages := updateMsg sampleChatState.currentAid (setContentLoaded (joinChunks ["Hello", " world"])) sampleChatState.messages } :=
  chat_chunks_append_in_order ["Hello", " world"] sampleChatState (by decide)
    (by decide) (by decide) (by decide)

/-- C2: the inactivity window is the fixed 30000 milliseconds, and when the
armed chunk timeout fires the assistant message gets the timeout error text
appended with its error flag set and loading cleared, and the stream is
fully cleaned up. -/
theorem chat_inactivity_timeout_spec (s : ChatState)
    (h : s.timeoutArmed = true) :
    CHUNK_TIMEOUT = 30000 ∧
    (step .timeoutFire s).messages =
      updateMsg s.currentAid
        (fun m =>
          { m with
            content := m.content ++ "\n[Error: Response timeout - No data received for 30 seconds]",
            error := true, isLoading := false })
        s.messages ∧
    streamClosed (step .timeoutFire s) := by
  have hstep : step .timeoutFire s = chunkTimeoutFire s.currentAid s := by
    simp [step, h]
  refine ⟨rfl, ?_, ?_⟩
  · rw [hstep]; rfl
  · rw [hstep]; exact ⟨rfl, rfl, rfl⟩

/-- Witness for C2 at the sample armed state. -/
theorem chat_inactivity_timeout_spec_witness :
    CHUNK_TIMEOUT = 30000 ∧
    (step .timeoutFire sampleArmedChatState).messages =
      updateMsg sampleArmedChatState.currentAid
        (fun m =>
          { m with
            content := m.content ++ "\n[Error: Response timeout - No data received for 30 seconds]",
            error := true, isLoading := false })
        sampleArmedChatState.messages ∧
    streamClosed (step .timeoutFire sampleArmedChatState) :=
  chat_inactivity_timeout_spec sampleArmedChatState (by decide)

/-- C3: the retry bound is `MAX_RETRIES = 3`; a send resets the retry count
to 0; on the open stream with retry count 0, the first two error events
each increment the count by exactly one and change nothing else (no failure
text, stream still open), and the third reaches the bound, appends the
failure text to the assistant message and tears the stream down. -/
theorem chat_retry_count_bound (s s2 : ChatState) (text uid aid : String)
    (now : Nat) (hs : s.sourceOpen = true) (h0 : s.retryCount = 0)
    (htext : jsTrim text ≠ "") :
    MAX_RETRIES = 3 ∧
    (handleSendMessage text uid aid now s2).retryCount = 0 ∧
    step .errorEvt s = { s with retryCount := 1 } ∧
    runEvents [.errorEvt, .errorEvt] s = { s with retryCount := 2 } ∧
    (runEvents [.errorEvt, .errorEvt, .errorEvt] s).messages =
      updateMsg s.currentAid
        (fun m =>
          { m with
            content := m.content ++ "\n[Error: Connection failed after multiple retries]",
            error := true, isLoading := false })
        s.messages ∧
    (runEvents [.errorEvt, .errorEvt, .errorEvt] s).retryCount = 3 ∧
    streamClosed (runEvents [.errorEvt, .errorEvt, .errorEvt] s) := by
  have e1 : step .errorEvt s = { s with retryCount := 1 } := by
    simp [step, hs, onErrorHandler, h0, MAX_RETRIES]
  have e2 : step .errorEvt { s with retryCount := 1 } =
      { s with retryCount := 2 } := by
    simp [step, hs, onErrorHandler, MAX_RETRIES]
  have e3 : step .errorEvt { s with retryCount := 2 } =
      handleStreamError s.currentAid "Connection failed after multiple retries"
        { s with retryCount := 3 } := by
    simp [step, hs, onErrorHandler, MAX_RETRIES]
  have r3 : runEvents [.errorEvt, .errorEvt, .errorEvt] s =
      handleStreamError s.currentAid "Connection failed after multiple retries"
        { s with retryCount := 3 } := by
    rw [runEvents_cons, e1, runEvents_cons, e2, runEvents_cons, e3]
    rfl
  refine ⟨rfl, ?_, e1, ?_, ?_, ?_, ?_⟩
  · simp [handleSendMessage, htext]
  · rw [runEvents_cons, e1, runEvents_cons, e2]; rfl
  · rw [r3]; simp [handleStreamError, cleanupStream, String.append_assoc]
  · rw [r3]; rfl
  · rw [r3]; exact ⟨rfl, rfl, rfl⟩

/-- Witness for C3 at the sample open state with retry count 0. -/
theorem chat_retry_count_bound_witness :
    MAX_RETRIES = 3 ∧
    (handleSendMessage "hi" "u1" "a2" 7 sampleChatState).retryCount = 0 ∧
    step .errorEvt sampleChatState = { sampleChatState with retryCount := 1 } ∧
    runEvents [.errorEvt, .errorEvt] sampleChatState = { sampleChatState with retryCount := 2 } ∧
    (runEvents [.errorEvt, .errorEvt, .errorEvt] sampleChatState).messages =
      updateMsg sampleChatState.currentAid
        (fun m =>
          { m with
            content := m.content ++ "\n[Error: Connection failed after multiple retries]",
            error := true, isLoading := false })
        sampleChatState.messages ∧
    (runEvents [.errorEvt, .errorEvt, .errorEvt] sampleChatState).retryCount = 3 ∧
    streamClosed (runEvents [.errorEvt, .errorEvt, .errorEvt] sampleChatState) :=
  chat_retry_count_bound sampleChatState sampleChatState "hi" "u1" "a2" 7
    (by decide) (by decide) (by decide)

/-- C4: the stream is opened exactly by sending a non-blank message (a
blank send leaves the connection flag unchanged, and no event other than a
send can turn it on), and each of the four terminating events — the `done`
event on the open source, a reported stream failure, unmount, and the armed
inactivity timeout firing — leaves the stream fully torn down: source
closed, timer cleared, loading off. -/
theorem chat_stream_lifecycle (s t u : ChatState)
    (text blank uid aid errorMsg d : String) (now : Nat)
    (hopen : s.sourceOpen = true) (harmed : t.timeoutArmed = true)
    (htext : jsTrim text ≠ "") (hblank : jsTrim blank = "") :
    (handleSendMessage text uid aid now u).sourceOpen = true ∧
    (handleSendMessage blank uid aid now u).sourceOpen = u.sourceOpen ∧
    streamClosed (step .doneEvt s) ∧
    streamClosed (step .timeoutFire t) ∧
    streamClosed (step .unmount u) ∧
    streamClosed (handleStreamError aid errorMsg u) ∧
    (step (.message d) u).sourceOpen ≤ u.sourceOpen ∧
    (step .errorEvt u).sourceOpen ≤ u.sourceOpen ∧
    (step .doneEvt u).sourceOpen ≤ u.sourceOpen ∧
    (step .timeoutFire u).sourceOpen ≤ u.sourceOpen ∧
    (step .unmount u).sourceOpen ≤ u.sourceOpen := by
  have hdone : step .doneEvt s = cleanupStream s := by simp [step, hopen]
  have hfire : step .timeoutFire t = chunkTimeoutFire t.currentAid t := by
    simp [step, harmed]
  refine ⟨?_, ?_, ?_, ?_, ⟨rfl, rfl, rfl⟩, ⟨rfl, rfl, rfl⟩, ?_, ?_, ?_, ?_, ?_⟩
  · simp [handleSendMessage, htext]
  · simp [handleSendMessage, hblank]
  · rw [hdone]; exact ⟨rfl, rfl, rfl⟩
  · rw [hfire]; exact ⟨rfl, rfl, rfl⟩
  · cases hu : u.sourceOpen
    · simp [step, hu]
    · exact Bool.le_true _
  · cases hu : u.sourceOpen
    · simp [step, hu]
    · exact Bool.le_true _
  · cases hu : u.sourceOpen
    · simp [step, hu]
    · exact Bool.le_true _
  · cases hu : u.sourceOpen
    · cases ha : u.timeoutArmed <;>
        simp [step, hu, ha, chunkTimeoutFire, cleanupStream]
    · exact Bool.le_true _
  · cases hu : u.sourceOpen
    · simp [step, hu, cleanupStream]
    · exact Bool.le_true _

/-- Witness for C4 at concrete states and inputs. -/
theorem chat_stream_lifecycle_witness :
    (handleSendMessage "hi" "u1" "a2" 7 sampleChatState).sourceOpen = true ∧
    (handleSendMessage " " "u1" "a2" 7 sampleChatState).sourceOpen = sampleChatState.sourceOpen ∧
    streamClosed (step .doneEvt sampleChatState) ∧
    streamClosed (step .timeoutFire sampleArmedChatState) ∧
    streamClosed (step .unmount sampleChatState) ∧
    streamClosed (handleStreamError "a1" "boom" sampleChatState) ∧
    (step (.message "x") sampleChatState).sourceOpen ≤ sampleChatState.sourceOpen ∧
    (step .errorEvt sampleChatState).sourceOpen ≤ sampleChatState.sourceOpen ∧
    (step .doneEvt sampleChatState).sourceOpen ≤ sampleChatState.sourceOpen ∧
    (step .timeoutFire sampleChatState).sourceOpen ≤ sampleChatState.sourceOpen ∧
    (step .unmount sampleChatState).sourceOpen ≤ sampleChatState.sourceOpen :=
  chat_stream_lifecycle sampleChatState sampleArmedChatState sampleChatState
    "hi" " " "u1" "a2" "boom" "x" 7 (by decide) (by decide) (by decide)
    (by decide)

/-- C10: a chunk containing the substring `"[Error:"` on the open stream is
never appended to the accumulated content; instead it is reported as
`"\n[Error: <chunk>]"` on the assistant message with the error flag set,
the stream is fully cleaned up, and any later chunk is ignored. -/
theorem chat_error_chunk_fails_stream (s : ChatState) (d d2 : String)
    (hopen : s.sourceOpen = true) (hne : d ≠ "")
    (herr : jsIncludes d "[Error:" = true) :
    (step (.message d) s).fullMessage = s.fullMessage ∧
    (step (.message d) s).messages =
      updateMsg s.currentAid
        (fun m =>
          { m with
            content := m.content ++ "\n[Error: " ++ d ++ "]",
            error := true, isLoading := false })
        s.messages ∧
    streamClosed (step (.message d) s) ∧
    step (.message d2) (step (.message d) s) = step (.message d) s := by
  have hstep : step (.message d) s =
      handleStreamError s.currentAid d (startChunkTimeout s) := by
    simp [step, hopen, onMessageHandler, hne, herr]
  have hclosed : (step (.message d) s).sourceOpen = false := by
    rw [hstep]; rfl
  refine ⟨?_, ?_, ?_, ?_⟩
  · rw [hstep]; rfl
  · rw [hstep]; rfl
  · rw [hstep]; exact ⟨rfl, rfl, rfl⟩
  · rw [hstep]; simp [step, handleStreamError, cleanupStream]

/-- Witness for C10 at a concrete error chunk on the sample open stream. -/
theorem chat_error_chunk_fails_stream_witness :
    (step (.message "x [Error: backend]") sampleChatState).fullMessage = sampleChatState.fullMessage ∧
    (step (.message "x [Error: backend]") sampleChatState).messages =
      updateMsg sampleChatState.currentAid
        (fun m =>
          { m with
            content := m.content ++ "\n[Error: " ++ "x [Error: backend]" ++ "]",
            error := true, isLoading := false })
        sampleChatState.messages ∧
    streamClosed (step (.message "x [Error: backend]") sampleChatState) ∧
    step (.message "more") (step (.message "x [Error: backend]") sampleChatState) =
      step (.message "x [Error: backend]") sampleChatState :=
  chat_error_chunk_fails_stream sampleChatState "x [Error: backend]" "more"
    (by decide) (by decide) (by decide)

/-- C9: for every input that trims to the empty string, `handleSendMessage`
returns without any effect: the whole chat state is unchanged. -/
theorem handleSendMessage_blank_noop (text uid aid : String) (now : Nat)
    (s : ChatState) (h : jsTrim text = "") :
    handleSendMessage text uid aid now s = s := by
  simp [handleSendMessage, h]

/-- Witness for C9 at a whitespace-only input. -/
theorem handleSendMessage_blank_noop_witness :
    handleSendMessage "   " "u1" "a2" 7 sampleChatState = sampleChatState :=
  handleSendMessage_blank_noop "   " "u1" "a2" 7 sampleChatState (by decide)

end BlueCollar
